import Mathlib

/-!
Shallow embedding of the AeroKernel Parameter Manager.

Source of truth: the latest draft of the module, consisting of
`parameter.hpp` (the `StorageType` / `ControlBlockFactory` /
`ControlBlockInterpreter` / `Manager : Chimera::Threading::Lockable`
version) and the matching `parameter.cpp`.

Modelling conventions:
* `size_t` is modelled as `Nat`; `std::numeric_limits<size_t>::max()` is
  `SIZE_MAX = 2 ^ 64 - 1` and `::min()` is `0`.
* `config & Location::MEM_LOC_MSK` with `MEM_LOC_MSK = 0x7 << 0` extracts
  the low 3 bits, i.e. `config % 8`; the pair
  `config &= ~MEM_LOC_MSK; config |= bits` (with `bits < 8`) is
  `config / 8 * 8 + bits`.
* The `spp::sparse_hash_map<std::string_view, ControlBlock>` registry is
  modelled as an association list `List (Key × ControlBlock)` with the
  hash-map operations (`operator[]` assignment, `operator[]` lookup with
  default insertion, `contains`, `erase`) given explicitly below.
* The inherited Chimera lock is an external capability; the outcome of
  `reserve( lockTimeout_mS ) == Chimera::CommonStatusCodes::OK` is passed
  to each operation as a boolean `lockOk` argument.
* `Chimera::Modules::Memory::Device_sPtr` backends are external
  collaborators; a backend is modelled as a pair of status functions of
  the address and size arguments.  A null shared pointer is `none`.
* `std::array<Device_sPtr, MAX_STORAGE_OPTIONS>` (8 slots) is a
  `List (Option Driver)` of length 8.  Indexing is modelled with
  `List.getD` / `List.set`; a C++ out-of-bounds index (undefined
  behaviour) is observable here as an index `≥ 8` into the length-8 list.
* Manager `read`/`write` additionally report the backend call they
  delegated (if any) as an `Option BackendCall`, so that "no backend I/O
  was performed" is expressible.
-/

/-- Parameter keys (`std::string_view`). -/
abbrev Key := String

/-- `std::numeric_limits<size_t>::max()` for a 64-bit `size_t`. -/
def SIZE_MAX : Nat := 2 ^ 64 - 1

/-- `enum class StorageType : uint8_t` from `parameter.hpp`.  The
underlying values are `INTERNAL_SRAM = 0, ..., EXTERNAL_SRAM2 = 7,
NONE = 8`, with `MAX_STORAGE_OPTIONS = NONE`. -/
inductive StorageType where
  | INTERNAL_SRAM
  | INTERNAL_FLASH
  | EXTERNAL_FLASH0
  | EXTERNAL_FLASH1
  | EXTERNAL_FLASH2
  | EXTERNAL_SRAM0
  | EXTERNAL_SRAM1
  | EXTERNAL_SRAM2
  | NONE
  deriving DecidableEq, BEq

/-- `static_cast<uint8_t>( storage )`: the underlying enum value. -/
def StorageType.toCode : StorageType → Nat
  | .INTERNAL_SRAM   => 0
  | .INTERNAL_FLASH  => 1
  | .EXTERNAL_FLASH0 => 2
  | .EXTERNAL_FLASH1 => 3
  | .EXTERNAL_FLASH2 => 4
  | .EXTERNAL_SRAM0  => 5
  | .EXTERNAL_SRAM1  => 6
  | .EXTERNAL_SRAM2  => 7
  | .NONE            => 8

/-- `StorageType::MAX_STORAGE_OPTIONS = NONE`, i.e. 8: the size of the
driver and spec tables. -/
def StorageType.MAX_STORAGE_OPTIONS : Nat := 8

/-- `Location::MEM_LOC_POS`: bit position of the memory locator field. -/
def Location.MEM_LOC_POS : Nat := 0

/-- `Location::MEM_LOC_MSK = 0x7 << MEM_LOC_POS`. -/
def Location.MEM_LOC_MSK : Nat := 7

/-- `Location::INVALID = 0`. -/
def Location.INVALID : Nat := 0

/-- `Location::INTERNAL_SRAM = 1u << MEM_LOC_POS`. -/
def Location.INTERNAL_SRAM : Nat := 1

/-- `Location::INTERNAL_FLASH = 2u << MEM_LOC_POS`. -/
def Location.INTERNAL_FLASH : Nat := 2

/-- `Location::EXTERNAL_FLASH0 = 3u << MEM_LOC_POS`. -/
def Location.EXTERNAL_FLASH0 : Nat := 3

/-- `Location::EXTERNAL_FLASH1 = 4u << MEM_LOC_POS`. -/
def Location.EXTERNAL_FLASH1 : Nat := 4

/-- `Location::EXTERNAL_FLASH2 = 5u << MEM_LOC_POS`. -/
def Location.EXTERNAL_FLASH2 : Nat := 5

/-- `Location::EXTERNAL_SRAM0 = 6u << MEM_LOC_POS`. -/
def Location.EXTERNAL_SRAM0 : Nat := 6

/-- `Location::EXTERNAL_SRAM1 = 7u << MEM_LOC_POS`. -/
def Location.EXTERNAL_SRAM1 : Nat := 7

/-- `Location::EXTERNAL_SRAM2 = 8u << MEM_LOC_POS`.  Note that this code
does not fit in the 3-bit `MEM_LOC_MSK` field: `8 & 0x7 = 0`. -/
def Location.EXTERNAL_SRAM2 : Nat := 8

/-- `Location::MAX_MEMORY_LOCATIONS = 8`. -/
def Location.MAX_MEMORY_LOCATIONS : Nat := 8

/-- `struct ControlBlock` from `parameter.hpp`, with its default member
initializers (`size`, `address`, `config` at `size_t` max, `update` a null
`std::function`). -/
structure ControlBlock where
  size : Nat := SIZE_MAX
  address : Nat := SIZE_MAX
  config : Nat := SIZE_MAX
  update : Option (Key → Bool) := none

/-- A default-constructed `ControlBlock` (what hash-map `operator[]`
inserts for a missing key). -/
def defaultControlBlock : ControlBlock := {}

/-- `class ControlBlockFactory`: a mutable builder around a `mold`. -/
structure ControlBlockFactory where
  mold : ControlBlock

/-- `ControlBlockFactory::clear`: `address` and `config` to
`numeric_limits::max()`, `size` to `numeric_limits::min()` (= 0),
`update` to `nullptr`. -/
def ControlBlockFactory.clear (f : ControlBlockFactory) : ControlBlockFactory :=
  { f with mold := { address := SIZE_MAX, config := SIZE_MAX, size := 0, update := none } }

/-- `ControlBlockFactory::ControlBlockFactory()`: the constructor calls
`clear()`. -/
def ControlBlockFactory.construct : ControlBlockFactory :=
  ControlBlockFactory.clear { mold := {} }

/-- `ControlBlockFactory::setSize`. -/
def ControlBlockFactory.setSize (f : ControlBlockFactory) (size : Nat) : ControlBlockFactory :=
  { f with mold := { f.mold with size := size } }

/-- `ControlBlockFactory::setAddress`. -/
def ControlBlockFactory.setAddress (f : ControlBlockFactory) (address : Nat) : ControlBlockFactory :=
  { f with mold := { f.mold with address := address } }

/-- `ControlBlockFactory::setStorage`: switch over the `StorageType`,
selecting `Location::<X> & MEM_LOC_MSK` (here `% 8`), default branch
(reached only for `NONE`) selecting `Location::INVALID & MEM_LOC_MSK`;
then `mold.config &= ~MEM_LOC_MSK; mold.config |= bitSettings` (here
`config / 8 * 8 + bitSettings`). -/
def ControlBlockFactory.setStorage (f : ControlBlockFactory) (t : StorageType) : ControlBlockFactory :=
  let bitSettings : Nat :=
    match t with
    | .INTERNAL_SRAM   => Location.INTERNAL_SRAM % 8
    | .INTERNAL_FLASH  => Location.INTERNAL_FLASH % 8
    | .EXTERNAL_FLASH0 => Location.EXTERNAL_FLASH0 % 8
    | .EXTERNAL_FLASH1 => Location.EXTERNAL_FLASH1 % 8
    | .EXTERNAL_FLASH2 => Location.EXTERNAL_FLASH2 % 8
    | .EXTERNAL_SRAM0  => Location.EXTERNAL_SRAM0 % 8
    | .EXTERNAL_SRAM1  => Location.EXTERNAL_SRAM1 % 8
    | .EXTERNAL_SRAM2  => Location.EXTERNAL_SRAM2 % 8
    | .NONE            => Location.INVALID % 8
  { f with mold := { f.mold with config := f.mold.config / 8 * 8 + bitSettings } }

/-- `ControlBlockFactory::setUpdateCallback`. -/
def ControlBlockFactory.setUpdateCallback (f : ControlBlockFactory) (callback : Option (Key → Bool)) : ControlBlockFactory :=
  { f with mold := { f.mold with update := callback } }

/-- `ControlBlockFactory::build`: returns the mold. -/
def ControlBlockFactory.build (f : ControlBlockFactory) : ControlBlock :=
  f.mold

/-- `ControlBlockInterpreter::getStorage`: mask off the 3-bit location
field (`ctrlBlk.config & MEM_LOC_MSK`, here `% 8`) and switch over the
`Location` codes in source order, defaulting to `StorageType::NONE`.
The `Location::EXTERNAL_SRAM2` case compares against the value 8, which a
3-bit field never holds. -/
def ControlBlockInterpreter.getStorage (ctrlBlk : ControlBlock) : StorageType :=
  let setBits := ctrlBlk.config % 8
  if setBits = Location.EXTERNAL_FLASH0 then .EXTERNAL_FLASH0
  else if setBits = Location.EXTERNAL_FLASH1 then .EXTERNAL_FLASH1
  else if setBits = Location.EXTERNAL_FLASH2 then .EXTERNAL_FLASH2
  else if setBits = Location.EXTERNAL_SRAM0 then .EXTERNAL_SRAM0
  else if setBits = Location.EXTERNAL_SRAM1 then .EXTERNAL_SRAM1
  else if setBits = Location.EXTERNAL_SRAM2 then .EXTERNAL_SRAM2
  else if setBits = Location.INTERNAL_FLASH then .INTERNAL_FLASH
  else if setBits = Location.INTERNAL_SRAM then .INTERNAL_SRAM
  else .NONE

/-- `ControlBlockInterpreter::getAddress`. -/
def ControlBlockInterpreter.getAddress (ctrlBlk : ControlBlock) : Nat :=
  ctrlBlk.address

/-- `ControlBlockInterpreter::getSize`. -/
def ControlBlockInterpreter.getSize (ctrlBlk : ControlBlock) : Nat :=
  ctrlBlk.size

/-- `ControlBlockInterpreter::getUpdateCallback`. -/
def ControlBlockInterpreter.getUpdateCallback (ctrlBlk : ControlBlock) : Option (Key → Bool) :=
  ctrlBlk.update

/-- `spp::sparse_hash_map::contains`. -/
def mapContains (p : List (Key × ControlBlock)) (k : Key) : Bool :=
  p.any (fun e => e.1 == k)

/-- Hash-map assignment `params[ key ] = controlBlock`: if the key exists
its value is replaced, otherwise the pair is added. -/
def mapAssign (p : List (Key × ControlBlock)) (k : Key) (v : ControlBlock) : List (Key × ControlBlock) :=
  if p.any (fun e => e.1 == k) then
    p.map (fun e => if e.1 == k then (k, v) else e)
  else
    p ++ [(k, v)]

/-- Hash-map lookup `params[ key ]` for a key known to be present (value
read); for an absent key C++ `operator[]` would first insert a
default-constructed block, so the default result matches that case. -/
def mapGet (p : List (Key × ControlBlock)) (k : Key) : ControlBlock :=
  ((p.find? (fun e => e.1 == k)).map Prod.snd).getD defaultControlBlock

/-- `params.erase( key )` result count: number of entries removed. -/
def mapEraseCount (p : List (Key × ControlBlock)) (k : Key) : Nat :=
  (p.filter (fun e => e.1 == k)).length

/-- `params.erase( key )` residual map: entries whose key differs. -/
def mapEraseList (p : List (Key × ControlBlock)) (k : Key) : List (Key × ControlBlock) :=
  p.filter (fun e => !(e.1 == k))

/-- An external storage backend (`Chimera::Modules::Memory::Device`):
`read(address, buffer, size)` and `write(address, buffer, size)` each
report a success status, modelled as functions of address and size. -/
structure Driver where
  readFn : Nat → Nat → Bool
  writeFn : Nat → Nat → Bool

/-- `Chimera::Modules::Memory::Descriptor`: opaque capacity/partition
metadata, never interpreted by the Manager. -/
structure Descriptor where
  tag : Nat := 0
  deriving DecidableEq

/-- A default-constructed `Descriptor`. -/
def defaultDescriptor : Descriptor := {}

/-- A delegated backend I/O call: which driver-table slot was used and the
address/size passed through from the control block. -/
structure BackendCall where
  slot : Nat
  address : Nat
  size : Nat
  deriving DecidableEq

/-- `class Manager : public Chimera::Threading::Lockable` state:
`initialized`, `lockTimeout_mS`, the `params` registry, the
`memoryDriver` table and `memorySpecs` table (both
`std::array<_, MAX_STORAGE_OPTIONS>`, 8 slots). -/
structure Manager where
  initialized : Bool
  lockTimeout_mS : Nat
  params : List (Key × ControlBlock)
  memoryDriver : List (Option Driver)
  memorySpecs : List Descriptor

/-- `Manager::Manager( const size_t lockTimeout_mS )`: starts
uninitialized with default-constructed members. -/
def Manager.construct (lockTimeout_mS : Nat) : Manager :=
  { initialized := false
    lockTimeout_mS := lockTimeout_mS
    params := []
    memoryDriver := List.replicate 8 none
    memorySpecs := List.replicate 8 defaultDescriptor }

/-- `Manager::init`: `params.clear()`, `params.resize(numParameters)`
(bucket pre-sizing only, adds no elements),
`memoryDriver.fill(nullptr)`, sets `initialized`; always returns true.
`memorySpecs` is not touched. -/
def Manager.init (m : Manager) (numParameters : Nat) : Manager :=
  { m with
    params := []
    memoryDriver := List.replicate 8 none
    initialized := true }

/-- `Manager::registerParameter`: guarded by `initialized` and a
successful `reserve`; assigns `params[key] = controlBlock`, releases, and
returns true. -/
def Manager.registerParameter (m : Manager) (key : Key) (controlBlock : ControlBlock) (lockOk : Bool) : Bool × Manager :=
  if m.initialized && lockOk then
    (true, { m with params := mapAssign m.params key controlBlock })
  else
    (false, m)

/-- `Manager::unregisterParameter`: guarded by `initialized` and a
successful `reserve`; result is `params.erase(key) > 0`. -/
def Manager.unregisterParameter (m : Manager) (key : Key) (lockOk : Bool) : Bool × Manager :=
  if m.initialized && lockOk then
    (mapEraseCount m.params key > 0, { m with params := mapEraseList m.params key })
  else
    (false, m)

/-- `Manager::isRegistered`: guarded by `initialized` and a successful
`reserve`; result is `params.contains(key)`. -/
def Manager.isRegistered (m : Manager) (key : Key) (lockOk : Bool) : Bool :=
  if m.initialized && lockOk then
    mapContains m.params key
  else
    false

/-- `Manager::read`: fails when uninitialized, the buffer is null, the
key is absent, or `reserve` fails; otherwise snapshots the control block,
decodes its storage, indexes `memoryDriver` with
`static_cast<uint8_t>(storage)`, releases the lock, and if a driver is
bound delegates `driver->read(address, param, size)` (success iff the
backend status is OK), else fails.  The second component reports the
delegated backend call, if any. -/
def Manager.read (m : Manager) (key : Key) (paramNull : Bool) (lockOk : Bool) : Bool × Option BackendCall :=
  if !m.initialized || paramNull || !(mapContains m.params key) || !lockOk then
    (false, none)
  else
    let ctrlBlk := mapGet m.params key
    let storage := ControlBlockInterpreter.getStorage ctrlBlk
    match m.memoryDriver.getD (StorageType.toCode storage) none with
    | some driver =>
        (driver.readFn ctrlBlk.address ctrlBlk.size,
         some { slot := StorageType.toCode storage, address := ctrlBlk.address, size := ctrlBlk.size })
    | none => (false, none)

/-- `Manager::write`: symmetric to `read`, delegating
`driver->write(address, param, size)`. -/
def Manager.write (m : Manager) (key : Key) (paramNull : Bool) (lockOk : Bool) : Bool × Option BackendCall :=
  if m.initialized && !paramNull && mapContains m.params key && lockOk then
    let ctrlBlk := mapGet m.params key
    let storage := ControlBlockInterpreter.getStorage ctrlBlk
    match m.memoryDriver.getD (StorageType.toCode storage) none with
    | some driver =>
        (driver.writeFn ctrlBlk.address ctrlBlk.size,
         some { slot := StorageType.toCode storage, address := ctrlBlk.address, size := ctrlBlk.size })
    | none => (false, none)
  else
    (false, none)

/-- `Manager::update`: requires `initialized` and key present (no lock);
invokes the control block's update callback if non-null and returns its
result, else false. -/
def Manager.update (m : Manager) (key : Key) : Bool :=
  if m.initialized && mapContains m.params key then
    match ControlBlockInterpreter.getUpdateCallback (mapGet m.params key) with
    | some updateFunc => updateFunc key
    | none => false
  else
    false

/-- `Manager::registerMemoryDriver`: guarded by `initialized`,
`storage != StorageType::NONE`, and a successful `reserve`; stores the
handle at `memoryDriver[static_cast<uint8_t>(storage)]`. -/
def Manager.registerMemoryDriver (m : Manager) (storage : StorageType) (driver : Driver) (lockOk : Bool) : Bool × Manager :=
  if m.initialized && !(storage == StorageType.NONE) && lockOk then
    (true, { m with memoryDriver := m.memoryDriver.set (StorageType.toCode storage) (some driver) })
  else
    (false, m)

/-- `Manager::registerMemorySpecs`: same guard as
`registerMemoryDriver`; stores the descriptor at
`memorySpecs[static_cast<uint8_t>(storage)]`. -/
def Manager.registerMemorySpecs (m : Manager) (storage : StorageType) (specs : Descriptor) (lockOk : Bool) : Bool × Manager :=
  if m.initialized && !(storage == StorageType.NONE) && lockOk then
    (true, { m with memorySpecs := m.memorySpecs.set (StorageType.toCode storage) specs })
  else
    (false, m)

/-- `Manager::getControlBlock`: `return params[ key ];` with no
initialization check and no lock.  Hash-map `operator[]` inserts a
default-constructed `ControlBlock` when the key is absent. -/
def Manager.getControlBlock (m : Manager) (key : Key) : ControlBlock × Manager :=
  if mapContains m.params key then
    (mapGet m.params key, m)
  else
    (defaultControlBlock, { m with params := m.params ++ [(key, defaultControlBlock)] })

/-- Observable events of one Manager operation, in program order:
successful lock acquisition (`reserve(...) == OK`), lock release, an
access (read or mutation) of the `params` registry, an access of the
`memoryDriver`/`memorySpecs` tables, and a delegated backend I/O call. -/
inductive LockEvent where
  | acquire
  | release
  | registryTouch
  | tableTouch
  | backendCall
  deriving DecidableEq, BEq

/-- Checks a lock discipline over an event trace, given whether the lock
is held at the start: registry and table accesses are legal only while
the lock is held, and backend calls only while it is not held. -/
def lockRespects : Bool → List LockEvent → Bool
  | _, [] => true
  | _, LockEvent.acquire :: es => lockRespects true es
  | _, LockEvent.release :: es => lockRespects false es
  | held, LockEvent.registryTouch :: es => held && lockRespects held es
  | held, LockEvent.tableTouch :: es => held && lockRespects held es
  | held, LockEvent.backendCall :: es => !held && lockRespects held es

/-- The lock discipline of the claim: starting with the lock not held,
every registry/table access happens under the lock and every backend
call happens after release. -/
def lockDisciplined (es : List LockEvent) : Bool :=
  lockRespects false es

/-- Event trace of `Manager::registerParameter`: if `initialized` the
lock is attempted; on success the registry assignment happens under the
lock and the lock is released. -/
def registerParameterTrace (m : Manager) (lockOk : Bool) : List LockEvent :=
  if m.initialized then
    if lockOk then [LockEvent.acquire, LockEvent.registryTouch, LockEvent.release] else []
  else []

/-- Event trace of `Manager::unregisterParameter`: same locking shape as
`registerParameter`, with `params.erase` as the registry access. -/
def unregisterParameterTrace (m : Manager) (lockOk : Bool) : List LockEvent :=
  if m.initialized then
    if lockOk then [LockEvent.acquire, LockEvent.registryTouch, LockEvent.release] else []
  else []

/-- Event trace of `Manager::isRegistered`: `params.contains` is
evaluated under the lock. -/
def isRegisteredTrace (m : Manager) (lockOk : Bool) : List LockEvent :=
  if m.initialized then
    if lockOk then [LockEvent.acquire, LockEvent.registryTouch, LockEvent.release] else []
  else []

/-- Event trace of `Manager::registerMemoryDriver`: after the
`initialized` and `storage != NONE` checks the lock is attempted; on
success the driver table is written under the lock. -/
def registerMemoryDriverTrace (m : Manager) (storage : StorageType) (lockOk : Bool) : List LockEvent :=
  if m.initialized && !(storage == StorageType.NONE) then
    if lockOk then [LockEvent.acquire, LockEvent.tableTouch, LockEvent.release] else []
  else []

/-- Event trace of `Manager::registerMemorySpecs`: same shape as
`registerMemoryDriverTrace`, writing `memorySpecs`. -/
def registerMemorySpecsTrace (m : Manager) (storage : StorageType) (lockOk : Bool) : List LockEvent :=
  if m.initialized && !(storage == StorageType.NONE) then
    if lockOk then [LockEvent.acquire, LockEvent.tableTouch, LockEvent.release] else []
  else []

/-- Event trace of `Manager::read`.  Short-circuit order of the guard:
`initialized`, then the null-buffer check, then `params.contains(key)`
(a registry access made before `reserve` is attempted), then `reserve`.
On the success path the control-block snapshot (`params[key]`) and the
driver-table lookup happen under the lock, the lock is released, and the
backend read is delegated only if a driver is bound. -/
def readTrace (m : Manager) (key : Key) (paramNull : Bool) (lockOk : Bool) : List LockEvent :=
  if !m.initialized || paramNull then []
  else
    LockEvent.registryTouch ::
      (if !(mapContains m.params key) then []
       else if !lockOk then []
       else
         LockEvent.acquire :: LockEvent.registryTouch :: LockEvent.tableTouch :: LockEvent.release ::
           (match m.memoryDriver.getD
               (StorageType.toCode (ControlBlockInterpreter.getStorage (mapGet m.params key))) none with
            | some _ => [LockEvent.backendCall]
            | none => []))

/-- Event trace of `Manager::write`: identical locking shape to
`readTrace` (`params.contains` before `reserve`; snapshot and table
lookup under the lock; release; delegated write if a driver is bound). -/
def writeTrace (m : Manager) (key : Key) (paramNull : Bool) (lockOk : Bool) : List LockEvent :=
  if !m.initialized || paramNull then []
  else
    LockEvent.registryTouch ::
      (if !(mapContains m.params key) then []
       else if !lockOk then []
       else
         LockEvent.acquire :: LockEvent.registryTouch :: LockEvent.tableTouch :: LockEvent.release ::
           (match m.memoryDriver.getD
               (StorageType.toCode (ControlBlockInterpreter.getStorage (mapGet m.params key))) none with
            | some _ => [LockEvent.backendCall]
            | none => []))

/-- Event trace of `Manager::update`: `params.contains(key)` (when
`initialized`) and then `params[key]` (when the key is present) are both
evaluated with no `reserve`/`release` anywhere in the function. -/
def updateTrace (m : Manager) (key : Key) : List LockEvent :=
  if m.initialized then
    LockEvent.registryTouch ::
      (if mapContains m.params key then [LockEvent.registryTouch] else [])
  else []

/-- Event trace of `Manager::getControlBlock`: an unconditional
`params[key]` with no lock. -/
def getControlBlockTrace (_m : Manager) (_key : Key) : List LockEvent :=
  [LockEvent.registryTouch]

/-- Assigning a key into the registry makes `contains` on that key true,
whether the key was overwritten or freshly added. -/
theorem mapContains_mapAssign_self (p : List (Key × ControlBlock)) (k : Key) (v : ControlBlock) :
    mapContains (mapAssign p k v) k = true := by
  unfold mapContains mapAssign
  split
  · rename_i h
    rw [List.any_eq_true] at h ⊢
    obtain ⟨e, he, hk⟩ := h
    refine ⟨(k, v), ?_, by simp⟩
    refine List.mem_map.mpr ⟨e, he, ?_⟩
    simp [hk]
  · simp [List.any_append]

/-- After erasing a key from the registry, `contains` on that key is
false. -/
theorem mapContains_mapEraseList_self (p : List (Key × ControlBlock)) (k : Key) :
    mapContains (mapEraseList p k) k = false := by
  rw [mapContains, mapEraseList, Bool.eq_false_iff]
  intro h
  rw [List.any_eq_true] at h
  obtain ⟨e, he, hk⟩ := h
  have hne := (List.mem_filter.mp he).2
  simp [hk] at hne

/-- Appending an entry for a key makes `contains` on that key true. -/
theorem mapContains_append_single (p : List (Key × ControlBlock)) (k : Key) (v : ControlBlock) :
    mapContains (p ++ [(k, v)]) k = true := by
  simp [mapContains, List.any_append]

/-- The tail of a `read`/`write` trace after the lock release respects
the discipline: the backend call, when present, happens with the lock
not held. -/
theorem lockRespects_backendTail (o : Option Driver) :
    lockRespects false
      (match o with
       | some _ => [LockEvent.backendCall]
       | none => []) = true := by
  cases o <;> rfl

/-- Claim C1 (code bug at `StorageType::EXTERNAL_SRAM2`): the
Factory/Interpreter storage round-trip holds for the first seven
enumerated locations, but `setStorage(EXTERNAL_SRAM2)` writes
`Location::EXTERNAL_SRAM2 & MEM_LOC_MSK = 8 & 0x7 = 0` — the `INVALID`
pattern — into the config field, so `getStorage` on the built block
returns `NONE` instead of `EXTERNAL_SRAM2`.  Encoding and decoding are
therefore not exact inverses over all 8 valid locations. -/
theorem storage_roundtrip_fails_for_EXTERNAL_SRAM2 :
    (ControlBlockInterpreter.getStorage ((ControlBlockFactory.construct.setStorage StorageType.INTERNAL_SRAM).build) = StorageType.INTERNAL_SRAM)
  ∧ (ControlBlockInterpreter.getStorage ((ControlBlockFactory.construct.setStorage StorageType.INTERNAL_FLASH).build) = StorageType.INTERNAL_FLASH)
  ∧ (ControlBlockInterpreter.getStorage ((ControlBlockFactory.construct.setStorage StorageType.EXTERNAL_FLASH0).build) = StorageType.EXTERNAL_FLASH0)
  ∧ (ControlBlockInterpreter.getStorage ((ControlBlockFactory.construct.setStorage StorageType.EXTERNAL_FLASH1).build) = StorageType.EXTERNAL_FLASH1)
  ∧ (ControlBlockInterpreter.getStorage ((ControlBlockFactory.construct.setStorage StorageType.EXTERNAL_FLASH2).build) = StorageType.EXTERNAL_FLASH2)
  ∧ (ControlBlockInterpreter.getStorage ((ControlBlockFactory.construct.setStorage StorageType.EXTERNAL_SRAM0).build) = StorageType.EXTERNAL_SRAM0)
  ∧ (ControlBlockInterpreter.getStorage ((ControlBlockFactory.construct.setStorage StorageType.EXTERNAL_SRAM1).build) = StorageType.EXTERNAL_SRAM1)
  ∧ (ControlBlockInterpreter.getStorage ((ControlBlockFactory.construct.setStorage StorageType.EXTERNAL_SRAM2).build) = StorageType.NONE)
  ∧ StorageType.NONE ≠ StorageType.EXTERNAL_SRAM2 := by
  decide

/-- Claim C2 (code bug): a reachable Ready Manager state holds a
registered key whose control block decodes to the `NONE` sentinel
(masked location field 0, produced by `setStorage(EXTERNAL_SRAM2)` on a
fresh factory).  For that key `read`/`write` pass every guard and reach
the driver lookup, where the index actually used —
`static_cast<uint8_t>(getStorage(ctrlBlk))` — equals 8, one past the end
of the 8-slot `memoryDriver` array: the decoded storage value used as
the index is the `NONE` sentinel and is out of bounds. -/
theorem read_driver_index_out_of_bounds :
    ((((Manager.construct 50).init 10).registerParameter "k"
        ((ControlBlockFactory.construct.setStorage StorageType.EXTERNAL_SRAM2).build) true).2.initialized = true)
  ∧ (mapContains (((Manager.construct 50).init 10).registerParameter "k"
        ((ControlBlockFactory.construct.setStorage StorageType.EXTERNAL_SRAM2).build) true).2.params "k" = true)
  ∧ (ControlBlockInterpreter.getStorage
      (mapGet (((Manager.construct 50).init 10).registerParameter "k"
        ((ControlBlockFactory.construct.setStorage StorageType.EXTERNAL_SRAM2).build) true).2.params "k") = StorageType.NONE)
  ∧ (StorageType.toCode (ControlBlockInterpreter.getStorage
      (mapGet (((Manager.construct 50).init 10).registerParameter "k"
        ((ControlBlockFactory.construct.setStorage StorageType.EXTERNAL_SRAM2).build) true).2.params "k")) = 8)
  ∧ ((((Manager.construct 50).init 10).registerParameter "k"
        ((ControlBlockFactory.construct.setStorage StorageType.EXTERNAL_SRAM2).build) true).2.memoryDriver.length = 8) := by
  decide

/-- Claim C3 (counterexample): `getControlBlock` on a Manager on which
`init` was never called does not fail — it has no initialization check,
and its hash-map `operator[]` lookup inserts a default control block,
growing the registry from 0 to 1 entries. -/
theorem getControlBlock_uninitialized_mutates :
    let m0 := Manager.construct 50
    m0.initialized = false
  ∧ m0.params.length = 0
  ∧ (m0.getControlBlock "k").2.params.length = 1
  ∧ mapContains (m0.getControlBlock "k").2.params "k" = true := by
  decide

/-- Claim C3 (amended): on a Manager on which `init` has never been
called, every operation except `init` and `getControlBlock` fails
(returns the failure value) and leaves the Manager state unchanged;
`getControlBlock` performs no initialization check. -/
theorem uninitialized_ops_fail_unchanged (m : Manager) (h : m.initialized = false)
    (k : Key) (cb : ControlBlock) (t : StorageType) (d : Driver) (sp : Descriptor)
    (paramNull lockOk : Bool) :
    m.registerParameter k cb lockOk = (false, m)
  ∧ m.unregisterParameter k lockOk = (false, m)
  ∧ m.isRegistered k lockOk = false
  ∧ m.read k paramNull lockOk = (false, none)
  ∧ m.write k paramNull lockOk = (false, none)
  ∧ m.update k = false
  ∧ m.registerMemoryDriver t d lockOk = (false, m)
  ∧ m.registerMemorySpecs t sp lockOk = (false, m) := by
  refine ⟨?_, ?_, ?_, ?_, ?_, ?_, ?_, ?_⟩ <;>
    simp [Manager.registerParameter, Manager.unregisterParameter, Manager.isRegistered,
      Manager.read, Manager.write, Manager.update, Manager.registerMemoryDriver,
      Manager.registerMemorySpecs, h]

/-- Witness for `uninitialized_ops_fail_unchanged` at a concrete
uninitialized Manager. -/
theorem uninitialized_ops_fail_unchanged_w :
    (Manager.construct 50).initialized = false
  ∧ (Manager.construct 50).read "k" false true = (false, none) :=
  ⟨by decide, (uninitialized_ops_fail_unchanged (Manager.construct 50) (by decide) "k" {}
      StorageType.NONE ⟨fun _ _ => true, fun _ _ => true⟩ {} false true).2.2.2.1⟩

/-- Claim C4 (counterexample): `init` does not discard descriptor
metadata.  Register a descriptor with tag 42 for `INTERNAL_SRAM`, call
`init` again: `memorySpecs` is unchanged, still holds the tag-42
descriptor in slot 0, and differs from a freshly filled table. -/
theorem init_keeps_memorySpecs :
    let m1 := (((Manager.construct 50).init 10).registerMemorySpecs StorageType.INTERNAL_SRAM { tag := 42 } true).2
    let m2 := m1.init 10
    m2.memorySpecs = m1.memorySpecs
  ∧ m2.memorySpecs.getD 0 defaultDescriptor = { tag := 42 }
  ∧ m2.memorySpecs ≠ List.replicate 8 defaultDescriptor := by
  decide

/-- Claim C4 (amended): `init` is destructive for the registry and the
driver handles — for every prior Manager state, after `init(n)` the
registry is empty (no key is registered) and every driver handle is
discarded (all 8 slots null) — but the descriptor metadata
(`memorySpecs`) is left unchanged. -/
theorem init_clears_registry_and_drivers (m : Manager) (n : Nat) :
    (m.init n).params = []
  ∧ (m.init n).memoryDriver = List.replicate 8 none
  ∧ (m.init n).initialized = true
  ∧ (m.init n).memorySpecs = m.memorySpecs
  ∧ (∀ (k : Key) (lockOk : Bool), (m.init n).isRegistered k lockOk = false) := by
  refine ⟨rfl, rfl, rfl, rfl, ?_⟩
  intro k lockOk
  cases lockOk <;> simp [Manager.isRegistered, Manager.init, mapContains]

/-- Claim C5 (counterexample): a block built from a cleared Factory on
which `setStorage` was never called does not decode to `NONE`: its
config is all ones, the masked 3-bit field is 7 — which matches the
`EXTERNAL_SRAM1` code — so `getStorage` returns the valid location
`EXTERNAL_SRAM1`, a false positive. -/
theorem cleared_block_decodes_EXTERNAL_SRAM1 :
    ControlBlockInterpreter.getStorage (ControlBlockFactory.construct.build) = StorageType.EXTERNAL_SRAM1
  ∧ (ControlBlockFactory.construct.build).config % 8 = Location.EXTERNAL_SRAM1
  ∧ StorageType.EXTERNAL_SRAM1 ≠ StorageType.NONE := by
  decide

/-- Claim C5 (amended): for every control block whose masked 3-bit
config field matches none of the 8 valid `Location` codes, `getStorage`
returns the `NONE` sentinel.  (Since the masked field is always `< 8`
and the valid codes are 1..8, the only such field value is 0.  A block
built from a cleared Factory is not such a block: its masked field is 7,
which aliases the `EXTERNAL_SRAM1` code — see the counterexample.) -/
theorem nonmatching_mask_decodes_to_NONE (b : ControlBlock)
    (h1 : b.config % 8 ≠ Location.INTERNAL_SRAM)
    (h2 : b.config % 8 ≠ Location.INTERNAL_FLASH)
    (h3 : b.config % 8 ≠ Location.EXTERNAL_FLASH0)
    (h4 : b.config % 8 ≠ Location.EXTERNAL_FLASH1)
    (h5 : b.config % 8 ≠ Location.EXTERNAL_FLASH2)
    (h6 : b.config % 8 ≠ Location.EXTERNAL_SRAM0)
    (h7 : b.config % 8 ≠ Location.EXTERNAL_SRAM1)
    (h8 : b.config % 8 ≠ Location.EXTERNAL_SRAM2) :
    ControlBlockInterpreter.getStorage b = StorageType.NONE := by
  simp [ControlBlockInterpreter.getStorage, h1, h2, h3, h4, h5, h6, h7, h8]

/-- Witness for `nonmatching_mask_decodes_to_NONE` at a block whose
config field is 0. -/
theorem nonmatching_mask_decodes_to_NONE_w :
    ControlBlockInterpreter.getStorage { size := 0, address := 0, config := 0, update := none } = StorageType.NONE :=
  nonmatching_mask_decodes_to_NONE { size := 0, address := 0, config := 0, update := none }
    (by decide) (by decide) (by decide) (by decide) (by decide) (by decide) (by decide) (by decide)

/-- Claim C6: on a Ready Manager with successful lock acquisitions, for
all keys k and control blocks cb, `registerParameter(k, cb)` succeeds
and a subsequent `isRegistered(k)` returns true, and after
`unregisterParameter(k)` a subsequent `isRegistered(k)` returns
false. -/
theorem register_then_isRegistered (m : Manager) (k : Key) (cb : ControlBlock)
    (h : m.initialized = true) :
    (m.registerParameter k cb true).1 = true
  ∧ (m.registerParameter k cb true).2.isRegistered k true = true
  ∧ (m.unregisterParameter k true).2.isRegistered k true = false := by
  refine ⟨?_, ?_, ?_⟩
  · simp [Manager.registerParameter, h]
  · simp [Manager.registerParameter, Manager.isRegistered, h, mapContains_mapAssign_self]
  · simp [Manager.unregisterParameter, Manager.isRegistered, h, mapContains_mapEraseList_self]

/-- Witness for `register_then_isRegistered` at a concrete initialized
Manager. -/
theorem register_then_isRegistered_w :
    ((Manager.construct 50).init 4).initialized = true
  ∧ ((((Manager.construct 50).init 4).registerParameter "k" {} true).2.isRegistered "k" true = true) :=
  ⟨by decide, (register_then_isRegistered ((Manager.construct 50).init 4) "k" {} (by decide)).2.1⟩

/-- Claim C7: on a Ready Manager, for a registered key whose control
block decodes to a storage location with no driver handle bound in that
slot of the table, `read` and `write` return failure and delegate no
backend I/O (the reported backend call is `none`). -/
theorem read_write_fail_when_no_driver_bound (m : Manager) (k : Key)
    (hinit : m.initialized = true)
    (hreg : mapContains m.params k = true)
    (hloc : ControlBlockInterpreter.getStorage (mapGet m.params k) ≠ StorageType.NONE)
    (hdrv : m.memoryDriver.getD
      (StorageType.toCode (ControlBlockInterpreter.getStorage (mapGet m.params k))) none = none) :
    m.read k false true = (false, none) ∧ m.write k false true = (false, none) := by
  rw [List.getD_eq_getElem?_getD] at hdrv
  constructor
  · simp [Manager.read, hinit, hreg, hdrv]
  · simp [Manager.write, hinit, hreg, hdrv]

/-- Witness for `read_write_fail_when_no_driver_bound`: an initialized
Manager with a key registered to `INTERNAL_SRAM` and no driver bound. -/
theorem read_write_fail_when_no_driver_bound_w :
    (((((Manager.construct 50).init 4).registerParameter "k"
        ((ControlBlockFactory.construct.setStorage StorageType.INTERNAL_SRAM).build) true).2).read
      "k" false true = (false, none)) :=
  (read_write_fail_when_no_driver_bound
    ((((Manager.construct 50).init 4).registerParameter "k"
        ((ControlBlockFactory.construct.setStorage StorageType.INTERNAL_SRAM).build) true).2)
    "k" (by decide) (by decide) (by decide) rfl).1

/-- Claim C8: `registerMemoryDriver` rejects the `NONE` sentinel (the
only storage argument whose slot index is `≥ 8`), returning failure with
the Manager — in particular the driver table — unchanged; for every
other (valid) location on a Ready Manager with the lock acquired, it
binds the handle into that location's slot, overwriting any prior
binding. -/
theorem registerMemoryDriver_validates_slot (m : Manager) (d : Driver) (lockOk : Bool) :
    (m.registerMemoryDriver StorageType.NONE d lockOk = (false, m))
  ∧ (∀ t : StorageType, 8 ≤ StorageType.toCode t → m.registerMemoryDriver t d lockOk = (false, m))
  ∧ (∀ t : StorageType, t ≠ StorageType.NONE → m.initialized = true → lockOk = true →
      m.registerMemoryDriver t d lockOk =
        (true, { m with memoryDriver := m.memoryDriver.set (StorageType.toCode t) (some d) })) := by
  have hb : (StorageType.NONE == StorageType.NONE) = true := rfl
  refine ⟨?_, ?_, ?_⟩
  · cases hm : m.initialized <;> simp [Manager.registerMemoryDriver, hm, hb]
  · intro t ht
    have hNONE : t = StorageType.NONE := by
      cases t <;> simp [StorageType.toCode] at ht ⊢
    subst hNONE
    cases hm : m.initialized <;> simp [Manager.registerMemoryDriver, hm, hb]
  · intro t ht hinit hlk
    subst hlk
    have hbeq : (t == StorageType.NONE) = false := by
      cases t <;> first | rfl | exact absurd rfl ht
    simp [Manager.registerMemoryDriver, hinit, hbeq]

/-- Witness for `registerMemoryDriver_validates_slot`: binding a driver
for `INTERNAL_SRAM` (slot 0) on a concrete initialized Manager. -/
theorem registerMemoryDriver_validates_slot_w :
    let m := (Manager.construct 50).init 4
    let d : Driver := ⟨fun _ _ => true, fun _ _ => true⟩
    m.registerMemoryDriver StorageType.INTERNAL_SRAM d true =
      (true, { m with memoryDriver := m.memoryDriver.set 0 (some d) }) :=
  (registerMemoryDriver_validates_slot ((Manager.construct 50).init 4)
      ⟨fun _ _ => true, fun _ _ => true⟩ true).2.2 StorageType.INTERNAL_SRAM
    (by decide) (by decide) rfl

/-- Claim C9 (counterexample): `Manager::update` evaluates
`params.contains(key)` — a registry access — without ever acquiring the
Manager's lock, so its event trace violates the lock discipline at a
concrete Ready Manager. -/
theorem update_accesses_registry_unlocked :
    lockDisciplined (updateTrace ((Manager.construct 50).init 4) "k") = false
  ∧ updateTrace ((Manager.construct 50).init 4) "k" = [LockEvent.registryTouch] := by
  decide

/-- Claim C9 (amended): `registerParameter`, `unregisterParameter`,
`isRegistered`, `registerMemoryDriver` and `registerMemorySpecs` obey
the lock discipline in full (registry/table accesses only under the
lock).  `read` and `write` evaluate their registry membership precheck
before acquiring the lock, but are otherwise disciplined: treating that
precheck as if the lock were already held at entry, their whole trace
respects the discipline — in particular the snapshot and driver-table
lookup happen under the lock and the backend delegation, when present,
happens only after release.  `update` and `getControlBlock` access the
registry without ever acquiring the lock. -/
theorem lock_discipline_amended :
    (∀ (m : Manager) (lockOk : Bool), lockDisciplined (registerParameterTrace m lockOk) = true)
  ∧ (∀ (m : Manager) (lockOk : Bool), lockDisciplined (unregisterParameterTrace m lockOk) = true)
  ∧ (∀ (m : Manager) (lockOk : Bool), lockDisciplined (isRegisteredTrace m lockOk) = true)
  ∧ (∀ (m : Manager) (t : StorageType) (lockOk : Bool),
      lockDisciplined (registerMemoryDriverTrace m t lockOk) = true)
  ∧ (∀ (m : Manager) (t : StorageType) (lockOk : Bool),
      lockDisciplined (registerMemorySpecsTrace m t lockOk) = true)
  ∧ (∀ (m : Manager) (k : Key) (paramNull lockOk : Bool),
      lockRespects true (readTrace m k paramNull lockOk) = true)
  ∧ (∀ (m : Manager) (k : Key) (paramNull lockOk : Bool),
      lockRespects true (writeTrace m k paramNull lockOk) = true)
  ∧ (∀ (m : Manager) (k : Key), (updateTrace m k).contains LockEvent.acquire = false)
  ∧ (∀ (m : Manager) (k : Key), (getControlBlockTrace m k).contains LockEvent.acquire = false) := by
  refine ⟨?_, ?_, ?_, ?_, ?_, ?_, ?_, ?_, ?_⟩
  · intro m lockOk
    cases hm : m.initialized <;> cases lockOk <;>
      simp [registerParameterTrace, hm, lockDisciplined, lockRespects]
  · intro m lockOk
    cases hm : m.initialized <;> cases lockOk <;>
      simp [unregisterParameterTrace, hm, lockDisciplined, lockRespects]
  · intro m lockOk
    cases hm : m.initialized <;> cases lockOk <;>
      simp [isRegisteredTrace, hm, lockDisciplined, lockRespects]
  · intro m t lockOk
    cases hg : (m.initialized && !(t == StorageType.NONE)) <;> cases lockOk <;>
      simp [registerMemoryDriverTrace, hg, lockDisciplined, lockRespects]
  · intro m t lockOk
    cases hg : (m.initialized && !(t == StorageType.NONE)) <;> cases lockOk <;>
      simp [registerMemorySpecsTrace, hg, lockDisciplined, lockRespects]
  · intro m k paramNull lockOk
    cases hm : m.initialized <;> cases paramNull <;>
      simp [readTrace, hm, lockRespects]
    cases hc : mapContains m.params k <;> simp [lockRespects]
    cases lockOk <;> simp [lockRespects]
    exact lockRespects_backendTail _
  · intro m k paramNull lockOk
    cases hm : m.initialized <;> cases paramNull <;>
      simp [writeTrace, hm, lockRespects]
    cases hc : mapContains m.params k <;> simp [lockRespects]
    cases lockOk <;> simp [lockRespects]
    exact lockRespects_backendTail _
  · intro m k
    unfold updateTrace
    cases hm : m.initialized
    · rfl
    · cases hc : mapContains m.params k <;> rfl
  · intro m k
    rfl

/-- Claim C10: calling `getControlBlock` on a Ready Manager with a key
that is not registered inserts a default-constructed control block under
that key (hash-map `operator[]` semantics): a subsequent `isRegistered`
on that key returns true, the registry has grown by one entry, and the
returned block is the default-constructed one. -/
theorem getControlBlock_inserts_default (m : Manager) (k : Key)
    (habs : mapContains m.params k = false)
    (hinit : m.initialized = true) :
    ((m.getControlBlock k).2.isRegistered k true = true)
  ∧ ((m.getControlBlock k).2.params.length = m.params.length + 1)
  ∧ ((m.getControlBlock k).1 = defaultControlBlock) := by
  refine ⟨?_, ?_, ?_⟩
  · simp [Manager.getControlBlock, habs, Manager.isRegistered, hinit, mapContains_append_single]
  · simp [Manager.getControlBlock, habs]
  · simp [Manager.getControlBlock, habs]

/-- Witness for `getControlBlock_inserts_default` at a concrete
initialized Manager with an unregistered key. -/
theorem getControlBlock_inserts_default_w :
    mapContains ((Manager.construct 50).init 4).params "k" = false
  ∧ ((((Manager.construct 50).init 4).getControlBlock "k").2.isRegistered "k" true = true) :=
  ⟨by decide, (getControlBlock_inserts_default ((Manager.construct 50).init 4) "k"
      (by decide) (by decide)).1⟩
